import Mathlib

/-!
Verification of the velero-plugin-for-vsm asynchronous operation coordinator.

Go strings that are subjected to `strings.Split` are modelled as `List Char`
(`Str`); all other strings are Lean `String`s.  Go maps (`map[string]string`)
are modelled as association lists; a possibly-nil map is an
`Option (List (String × String))` (`none` is Go's nil map, whose reads yield
the zero value `""`).  Fallible Go calls return `Except GoError`; calls to the
remote Kubernetes store (`Get`, `List`, `Create`, `Delete`) are passed in as
explicit function parameters so that the plugin code under verification is a
pure function of its inputs and the store's responses.
-/

set_option autoImplicit false

namespace VSMPlugin

/-- Go string subjected to `strings.Split`, modelled as its character list. -/
abbrev Str := List Char

/-- Errors surfaced by the plugin.  `wrapped` models `errors.Wrapf` with the
format string used at the wrap site; `invalidOperationID` models
`biav2.InvalidOperationIDError` / `riav2.InvalidOperationIDError`. -/
inductive GoError where
  | invalidOperationID (operationID : Str)
  | notFound
  | alreadyExists
  | errWaitTimeout
  | terminalFailure (name : String)
  | wrapped (context : String) (e : GoError)
  | other (msg : String)
deriving DecidableEq, Repr

/-- Model of Go `strings.Split(s, "/")`: splits at every separator occurrence,
so `splitSlash "" = [""]`, `splitSlash "/" = ["", ""]`, and every character
list splits into at least one segment. -/
def splitSlash : Str → List Str
  | [] => [[]]
  | c :: rest =>
    if c = '/' then [] :: splitSlash rest
    else
      match splitSlash rest with
      | [] => [[c]]
      | s :: ss => (c :: s) :: ss

/-- Operation handle construction, as written at the creation sites:
`operationID = vsb.Namespace + "/" + vsb.Name` (and the identical line for
VolumeSnapshotRestore objects). -/
def encodeOperationID (ns name : Str) : Str := ns ++ ['/'] ++ name

/-- Operation handle decoding, as performed at the start of the `Progress`
methods that check the segment count: split on `"/"` and demand exactly two
segments (their emptiness is not checked by the code). -/
def decodeOperationID (operationID : Str) : Option (Str × Str) :=
  match splitSlash operationID with
  | [ns, name] => some (ns, name)
  | _ => none

theorem splitSlash_ne_nil (l : Str) : splitSlash l ≠ [] := by
  cases l with
  | nil => simp [splitSlash]
  | cons c rest =>
    simp only [splitSlash]
    split
    · simp
    · split <;> simp

theorem splitSlash_no_slash (l : Str) (h : '/' ∉ l) : splitSlash l = [l] := by
  induction l with
  | nil => rfl
  | cons c rest ih =>
    have hc : ¬ c = '/' := fun hc => h (hc ▸ List.mem_cons_self c rest)
    have hrest : '/' ∉ rest := fun hm => h (List.mem_cons_of_mem c hm)
    simp only [splitSlash, if_neg hc, ih hrest]

theorem splitSlash_append (ns name : Str) (h : '/' ∉ ns) :
    splitSlash (ns ++ '/' :: name) = ns :: splitSlash name := by
  induction ns with
  | nil => simp [splitSlash]
  | cons c rest ih =>
    have hc : ¬ c = '/' := fun hc => h (hc ▸ List.mem_cons_self c rest)
    have hrest : '/' ∉ rest := fun hm => h (List.mem_cons_of_mem c hm)
    simp only [List.cons_append, splitSlash, if_neg hc]
    rw [List.append_eq, ih hrest]

theorem splitSlash_encode (ns name : Str) (hns : '/' ∉ ns) (hname : '/' ∉ name) :
    splitSlash (encodeOperationID ns name) = [ns, name] := by
  simp [encodeOperationID, splitSlash_append ns name hns, splitSlash_no_slash name hname]

/-- Claim C5: for all non-empty namespace and name strings containing no
separator character `'/'`, decoding the handle obtained by encoding them
(namespace + "/" + name, then splitting on "/") returns exactly the original
(namespace, name) pair. -/
theorem decode_encode_roundtrip (ns name : Str) (_hns0 : ns ≠ []) (_hname0 : name ≠ [])
    (hns : '/' ∉ ns) (hname : '/' ∉ name) :
    decodeOperationID (encodeOperationID ns name) = some (ns, name) := by
  simp [decodeOperationID, splitSlash_encode ns name hns hname]

/-- Witness for C5 at namespace "ns" and name "req". -/
theorem decode_encode_roundtrip_witness :
    decodeOperationID (encodeOperationID ['n', 's'] ['r', 'e', 'q']) =
      some (['n', 's'], ['r', 'e', 'q']) :=
  decode_encode_roundtrip ['n', 's'] ['r', 'e', 'q'] (by decide) (by decide)
    (by decide) (by decide)

/-! ## Kubernetes object model -/

/-- Go map update `m[k] = v` on an association list: replaces the first
binding of `k`, or appends one. -/
def mapSet (m : List (String × String)) (k v : String) : List (String × String) :=
  match m with
  | [] => [(k, v)]
  | (k1, v1) :: rest => if k1 = k then (k, v) :: rest else (k1, v1) :: mapSet rest k v

/-- First binding of `k` in an association list. -/
def mapLookup (m : List (String × String)) (k : String) : Option String :=
  match m with
  | [] => none
  | (k1, v1) :: rest => if k1 = k then some v1 else mapLookup rest k

/-- Go map read `m[k]` on a possibly-nil map: the zero value `""` when the map
is nil or the key is absent. -/
def goMapGet (m : Option (List (String × String))) (k : String) : String :=
  (mapLookup (m.getD []) k).getD ""

/-- Presence-aware read of a possibly-nil Go map (used to state that a key is
bound to the same value, or absent, on both sides of an operation). -/
def goMapLookup (m : Option (List (String × String))) (k : String) : Option String :=
  mapLookup (m.getD []) k

/-- `metav1.ObjectMeta`, restricted to the fields the plugin touches.
`none` maps model Go's nil maps. -/
structure ObjectMeta where
  name : String := ""
  generateName : String := ""
  nspace : String := ""
  labels : Option (List (String × String)) := none
  annotations : Option (List (String × String)) := none
deriving DecidableEq, Repr

/-- `metav1.Condition`, restricted to the fields inspected by the poller. -/
structure Condition where
  condType : String := ""
  status : String := ""
  reason : String := ""
deriving DecidableEq, Repr

/-- `datamoverv1alpha1.PVCData`. -/
structure PVCData where
  name : String := ""
  size : String := ""
  storageClassName : String := ""
deriving DecidableEq, Repr

/-- `datamoverv1alpha1.VolumeSnapshotBackupSpec`, with the object references
flattened to the referenced names. -/
structure VolumeSnapshotBackupSpec where
  volumeSnapshotContentName : String := ""
  protectedNamespace : String := ""
  resticSecretRefName : String := ""
deriving DecidableEq, Repr

/-- `datamoverv1alpha1.VolumeSnapshotBackupStatus`.  Timestamps are modelled
as `Option Nat` (`none` is Go's nil `*metav1.Time`). -/
structure VolumeSnapshotBackupStatus where
  phase : String := ""
  batchingStatus : String := ""
  startTimestamp : Option Nat := none
  completionTimestamp : Option Nat := none
  resticRepository : String := ""
  sourcePVCData : PVCData := {}
  volumeSnapshotClassName : String := ""
  conditions : List Condition := []
deriving DecidableEq, Repr

/-- `datamoverv1alpha1.VolumeSnapshotBackup`. -/
structure VolumeSnapshotBackup where
  metadata : ObjectMeta := {}
  spec : VolumeSnapshotBackupSpec := {}
  status : VolumeSnapshotBackupStatus := {}
deriving DecidableEq, Repr

/-- `datamoverv1alpha1.VolumeSnapshotRestoreSpec`, with references flattened. -/
structure VolumeSnapshotRestoreSpec where
  resticSecretRefName : String := ""
  backedUpPVCData : PVCData := {}
  resticRepository : String := ""
  volumeSnapshotClassName : String := ""
  protectedNamespace : String := ""
deriving DecidableEq, Repr

/-- `datamoverv1alpha1.VolumeSnapshotRestoreStatus`. -/
structure VolumeSnapshotRestoreStatus where
  phase : String := ""
  batchingStatus : String := ""
  startTimestamp : Option Nat := none
  completionTimestamp : Option Nat := none
  snapshotHandle : String := ""
deriving DecidableEq, Repr

/-- `datamoverv1alpha1.VolumeSnapshotRestore`. -/
structure VolumeSnapshotRestore where
  metadata : ObjectMeta := {}
  spec : VolumeSnapshotRestoreSpec := {}
  status : VolumeSnapshotRestoreStatus := {}
deriving DecidableEq, Repr

/-- Modelled from the spec: phase constants of the external
volume-snapshot-mover API (`Phase ∈ {New, InProgress, Completed, Failed}`);
the API package itself is not part of this repository. -/
def SnapMoverBackupPhaseCompleted : String := "Completed"

/-- Modelled from the spec: the terminal failure phase of a backup request. -/
def SnapMoverBackupPhaseFailed : String := "Failed"

/-- Modelled from the spec: the terminal success phase of a restore request. -/
def SnapMoverRestorePhaseCompleted : String := "Completed"

/-- Modelled from the spec: the terminal failure phase of a restore request. -/
def SnapMoverRestorePhaseFailed : String := "Failed"

/-- `velero.OperationProgress`, restricted to the fields the plugin writes.
The timestamps are `Option Nat` (`none` is Go's zero `time.Time`). -/
structure OperationProgress where
  description : String := ""
  started : Option Nat := none
  updated : Option Nat := none
  completed : Bool := false
  err : String := ""
deriving DecidableEq, Repr

/-! ## Progress reporters -/

/-- `if status.StartTimestamp != nil { progress.Started = status.StartTimestamp.Time }`. -/
def setStarted (p : OperationProgress) (t : Option Nat) : OperationProgress :=
  match t with
  | some t0 => { p with started := some t0 }
  | none => p

/-- `if status.CompletionTimestamp != nil { progress.Updated = status.CompletionTimestamp.Time }`. -/
def setUpdatedFromCompletion (p : OperationProgress) (t : Option Nat) : OperationProgress :=
  match t with
  | some t0 => { p with updated := some t0 }
  | none => p

@[simp] theorem setStarted_completed (p : OperationProgress) (t : Option Nat) :
    (setStarted p t).completed = p.completed := by cases t <;> rfl

@[simp] theorem setStarted_err (p : OperationProgress) (t : Option Nat) :
    (setStarted p t).err = p.err := by cases t <;> rfl

@[simp] theorem setStarted_description (p : OperationProgress) (t : Option Nat) :
    (setStarted p t).description = p.description := by cases t <;> rfl

@[simp] theorem setUpdatedFromCompletion_completed (p : OperationProgress) (t : Option Nat) :
    (setUpdatedFromCompletion p t).completed = p.completed := by cases t <;> rfl

@[simp] theorem setUpdatedFromCompletion_err (p : OperationProgress) (t : Option Nat) :
    (setUpdatedFromCompletion p t).err = p.err := by cases t <;> rfl

/-- Progress record built by the first
`VolumeSnapshotContentBackupItemActionV2.Progress` variant after a successful
fetch: description/completion/error are only written when both `Phase` and
`BatchingStatus` are populated; `Updated` is the current time. -/
def vsbProgressRecordA (vsb : VolumeSnapshotBackup) (now : Nat) : OperationProgress :=
  let base : OperationProgress := {}
  let p :=
    if vsb.status.phase ≠ "" ∧ vsb.status.batchingStatus ≠ "" then
      let p := { base with
        description := "Phase: " ++ vsb.status.phase ++ " BatchingStatus: " ++
          vsb.status.batchingStatus }
      let p := if vsb.status.phase = SnapMoverBackupPhaseCompleted then
          { p with completed := true } else p
      if vsb.status.phase = SnapMoverBackupPhaseFailed then
        { p with err := "VolumeSnapshotBackup has a failed status", completed := true }
      else p
    else base
  { setStarted p vsb.status.startTimestamp with updated := some now }

/-- The first `VolumeSnapshotContentBackupItemActionV2.Progress` variant: an
empty handle and a handle whose split is not exactly two segments fail with
`InvalidOperationID`; otherwise the request is fetched and its record built.
The store `Get` is the explicit `fetch` parameter. -/
def progressBackupV2a (fetch : Str → Str → Except GoError VolumeSnapshotBackup)
    (now : Nat) (operationID : Str) : Except GoError OperationProgress :=
  if operationID = [] then .error (.invalidOperationID operationID)
  else
    match splitSlash operationID with
    | [vsbNamespace, vsbName] =>
      match fetch vsbNamespace vsbName with
      | .error e =>
        .error (.wrapped "error fetching volumesnapshotbackup CR for operationID" e)
      | .ok vsb => .ok (vsbProgressRecordA vsb now)
    | _ => .error (.invalidOperationID operationID)

/-- Progress record built by the second
`VolumeSnapshotContentBackupItemActionV2.Progress` variant: gated on `Phase`
only; `Failed` sets the error but not `Completed`; `Updated` is the request's
own completion timestamp when present. -/
def vsbProgressRecordB (vsb : VolumeSnapshotBackup) : OperationProgress :=
  let base : OperationProgress := {}
  let p :=
    if vsb.status.phase ≠ "" then
      let p := { base with description := vsb.status.phase }
      let p := if vsb.status.phase = SnapMoverBackupPhaseCompleted then
          { p with completed := true } else p
      if vsb.status.phase = SnapMoverBackupPhaseFailed then
        { p with err := "VolumeSnapshotBackup has a failed status" }
      else p
    else base
  setUpdatedFromCompletion (setStarted p vsb.status.startTimestamp)
    vsb.status.completionTimestamp

/-- Outcome of the second `Progress` variant, which indexes the split result
without checking its length: a one-segment split panics (index out of
range). -/
inductive ProgressOutcome where
  | okOut (p : OperationProgress)
  | errOut (e : GoError)
  | panicked
deriving DecidableEq, Repr

/-- The second `VolumeSnapshotContentBackupItemActionV2.Progress` variant:
only the empty handle is rejected with `InvalidOperationID`; the split is
indexed at 0 and 1 with no length check. -/
def progressBackupV2b (fetch : Str → Str → Except GoError VolumeSnapshotBackup)
    (operationID : Str) : ProgressOutcome :=
  if operationID = [] then .errOut (.invalidOperationID operationID)
  else
    match splitSlash operationID with
    | vsbNamespace :: vsbName :: _ =>
      match fetch vsbNamespace vsbName with
      | .error e =>
        .errOut (.wrapped "error fetching volumesnapshotbackup CR for operationID" e)
      | .ok vsb => .okOut (vsbProgressRecordB vsb)
    | _ => .panicked

/-- Progress record built by
`VolumeSnapshotBackupRestoreItemActionV2.Progress` after a successful fetch:
same shape as the first backup variant, over VolumeSnapshotRestore. -/
def vsrProgressRecord (vsr : VolumeSnapshotRestore) (now : Nat) : OperationProgress :=
  let base : OperationProgress := {}
  let p :=
    if vsr.status.phase ≠ "" ∧ vsr.status.batchingStatus ≠ "" then
      let p := { base with
        description := "Phase: " ++ vsr.status.phase ++ " BatchingStatus: " ++
          vsr.status.batchingStatus }
      let p := if vsr.status.phase = SnapMoverRestorePhaseCompleted then
          { p with completed := true } else p
      if vsr.status.phase = SnapMoverRestorePhaseFailed then
        { p with err := "VolumeSnapshotRestore has a failed status", completed := true }
      else p
    else base
  { setStarted p vsr.status.startTimestamp with updated := some now }

/-- `VolumeSnapshotBackupRestoreItemActionV2.Progress`: same handle handling
as the first backup variant, fetching a VolumeSnapshotRestore. -/
def progressRestoreV2 (fetch : Str → Str → Except GoError VolumeSnapshotRestore)
    (now : Nat) (operationID : Str) : Except GoError OperationProgress :=
  if operationID = [] then .error (.invalidOperationID operationID)
  else
    match splitSlash operationID with
    | [vsrNamespace, vsrName] =>
      match fetch vsrNamespace vsrName with
      | .error e =>
        .error (.wrapped "error fetching volumesnapshotrestore CR for operationID" e)
      | .ok vsr => .ok (vsrProgressRecord vsr now)
    | _ => .error (.invalidOperationID operationID)

theorem encode_ne_nil (ns name : Str) : encodeOperationID ns name ≠ [] := by
  simp [encodeOperationID]

theorem progressBackupV2a_encode
    (fetch : Str → Str → Except GoError VolumeSnapshotBackup) (now : Nat)
    (ns name : Str) (vsb : VolumeSnapshotBackup)
    (hns : '/' ∉ ns) (hname : '/' ∉ name) (hf : fetch ns name = .ok vsb) :
    progressBackupV2a fetch now (encodeOperationID ns name) =
      .ok (vsbProgressRecordA vsb now) := by
  unfold progressBackupV2a
  rw [if_neg (encode_ne_nil ns name), splitSlash_encode ns name hns hname]
  simp only [hf]

theorem progressBackupV2b_encode
    (fetch : Str → Str → Except GoError VolumeSnapshotBackup)
    (ns name : Str) (vsb : VolumeSnapshotBackup)
    (hns : '/' ∉ ns) (hname : '/' ∉ name) (hf : fetch ns name = .ok vsb) :
    progressBackupV2b fetch (encodeOperationID ns name) =
      .okOut (vsbProgressRecordB vsb) := by
  unfold progressBackupV2b
  rw [if_neg (encode_ne_nil ns name), splitSlash_encode ns name hns hname]
  simp only [hf]

theorem progressRestoreV2_encode
    (fetch : Str → Str → Except GoError VolumeSnapshotRestore) (now : Nat)
    (ns name : Str) (vsr : VolumeSnapshotRestore)
    (hns : '/' ∉ ns) (hname : '/' ∉ name) (hf : fetch ns name = .ok vsr) :
    progressRestoreV2 fetch now (encodeOperationID ns name) =
      .ok (vsrProgressRecord vsr now) := by
  unfold progressRestoreV2
  rw [if_neg (encode_ne_nil ns name), splitSlash_encode ns name hns hname]
  simp only [hf]

theorem vsbProgressRecordA_completed_iff (vsb : VolumeSnapshotBackup) (now : Nat) :
    (vsbProgressRecordA vsb now).completed = true ↔
      vsb.status.batchingStatus ≠ "" ∧
        (vsb.status.phase = SnapMoverBackupPhaseCompleted ∨
          vsb.status.phase = SnapMoverBackupPhaseFailed) := by
  by_cases hP : vsb.status.phase = "" <;>
    by_cases hB : vsb.status.batchingStatus = "" <;>
      by_cases hC : vsb.status.phase = SnapMoverBackupPhaseCompleted <;>
        by_cases hF : vsb.status.phase = SnapMoverBackupPhaseFailed <;>
          simp_all [vsbProgressRecordA, SnapMoverBackupPhaseCompleted,
            SnapMoverBackupPhaseFailed]

theorem vsbProgressRecordA_failed (vsb : VolumeSnapshotBackup) (now : Nat)
    (hB : vsb.status.batchingStatus ≠ "")
    (hF : vsb.status.phase = SnapMoverBackupPhaseFailed) :
    (vsbProgressRecordA vsb now).err = "VolumeSnapshotBackup has a failed status" ∧
      (vsbProgressRecordA vsb now).completed = true := by
  simp [vsbProgressRecordA, hF, hB, SnapMoverBackupPhaseCompleted,
    SnapMoverBackupPhaseFailed]

theorem vsrProgressRecord_completed_iff (vsr : VolumeSnapshotRestore) (now : Nat) :
    (vsrProgressRecord vsr now).completed = true ↔
      vsr.status.batchingStatus ≠ "" ∧
        (vsr.status.phase = SnapMoverRestorePhaseCompleted ∨
          vsr.status.phase = SnapMoverRestorePhaseFailed) := by
  by_cases hP : vsr.status.phase = "" <;>
    by_cases hB : vsr.status.batchingStatus = "" <;>
      by_cases hC : vsr.status.phase = SnapMoverRestorePhaseCompleted <;>
        by_cases hF : vsr.status.phase = SnapMoverRestorePhaseFailed <;>
          simp_all [vsrProgressRecord, SnapMoverRestorePhaseCompleted,
            SnapMoverRestorePhaseFailed]

theorem vsrProgressRecord_failed (vsr : VolumeSnapshotRestore) (now : Nat)
    (hB : vsr.status.batchingStatus ≠ "")
    (hF : vsr.status.phase = SnapMoverRestorePhaseFailed) :
    (vsrProgressRecord vsr now).err = "VolumeSnapshotRestore has a failed status" ∧
      (vsrProgressRecord vsr now).completed = true := by
  simp [vsrProgressRecord, hF, hB, SnapMoverRestorePhaseCompleted,
    SnapMoverRestorePhaseFailed]

theorem vsbProgressRecordB_completed_iff (vsb : VolumeSnapshotBackup) :
    (vsbProgressRecordB vsb).completed = true ↔
      vsb.status.phase = SnapMoverBackupPhaseCompleted := by
  by_cases hP : vsb.status.phase = "" <;>
    by_cases hC : vsb.status.phase = SnapMoverBackupPhaseCompleted <;>
      by_cases hF : vsb.status.phase = SnapMoverBackupPhaseFailed <;>
        simp_all [vsbProgressRecordB, SnapMoverBackupPhaseCompleted,
          SnapMoverBackupPhaseFailed]

theorem vsbProgressRecordB_failed (vsb : VolumeSnapshotBackup)
    (hF : vsb.status.phase = SnapMoverBackupPhaseFailed) :
    (vsbProgressRecordB vsb).err = "VolumeSnapshotBackup has a failed status" ∧
      (vsbProgressRecordB vsb).completed = false := by
  simp [vsbProgressRecordB, hF, SnapMoverBackupPhaseCompleted,
    SnapMoverBackupPhaseFailed]

/-- A request in `Failed` phase whose `BatchingStatus` is not populated. -/
def failedNoBatchVSB : VolumeSnapshotBackup :=
  { status := { phase := "Failed" } }

/-- Claim C1 counterexample: a `Progress` call on a handle that fetches an
existing request in `Failed` phase with empty `BatchingStatus` returns a
record with `completed = false` and an empty error, so `completed` is not
true whenever the phase is Failed regardless of `BatchingStatus`. -/
theorem progress_failed_without_batching_not_completed :
    failedNoBatchVSB.status.phase = SnapMoverBackupPhaseFailed ∧
    progressBackupV2a (fun _ _ => .ok failedNoBatchVSB) 7 ['n', '/', 'm'] =
      .ok { description := "", started := none, updated := some 7,
            completed := false, err := "" } := by
  exact ⟨rfl, rfl⟩

/-- Claim C1 (amended): for Progress calls whose handle decodes to an existing
request, the two variants that build a batching description report
`completed = true` iff `BatchingStatus` is populated and the phase is
Completed or Failed; under those guards a Failed phase yields the fixed
non-empty error message with `completed = true`.  The second backup variant
reports `completed = true` iff the phase is Completed, and on a Failed phase
sets the fixed error message but leaves `completed = false`. -/
theorem progress_completed_characterisation
    (fetchB : Str → Str → Except GoError VolumeSnapshotBackup)
    (fetchR : Str → Str → Except GoError VolumeSnapshotRestore)
    (ns name : Str) (vsb : VolumeSnapshotBackup) (vsr : VolumeSnapshotRestore)
    (now : Nat) (hns : '/' ∉ ns) (hname : '/' ∉ name)
    (hfB : fetchB ns name = .ok vsb) (hfR : fetchR ns name = .ok vsr) :
    (progressBackupV2a fetchB now (encodeOperationID ns name) =
        .ok (vsbProgressRecordA vsb now) ∧
      ((vsbProgressRecordA vsb now).completed = true ↔
        vsb.status.batchingStatus ≠ "" ∧
          (vsb.status.phase = SnapMoverBackupPhaseCompleted ∨
            vsb.status.phase = SnapMoverBackupPhaseFailed)) ∧
      (vsb.status.batchingStatus ≠ "" →
        vsb.status.phase = SnapMoverBackupPhaseFailed →
        (vsbProgressRecordA vsb now).err = "VolumeSnapshotBackup has a failed status" ∧
          (vsbProgressRecordA vsb now).completed = true)) ∧
    (progressRestoreV2 fetchR now (encodeOperationID ns name) =
        .ok (vsrProgressRecord vsr now) ∧
      ((vsrProgressRecord vsr now).completed = true ↔
        vsr.status.batchingStatus ≠ "" ∧
          (vsr.status.phase = SnapMoverRestorePhaseCompleted ∨
            vsr.status.phase = SnapMoverRestorePhaseFailed)) ∧
      (vsr.status.batchingStatus ≠ "" →
        vsr.status.phase = SnapMoverRestorePhaseFailed →
        (vsrProgressRecord vsr now).err = "VolumeSnapshotRestore has a failed status" ∧
          (vsrProgressRecord vsr now).completed = true)) ∧
    (progressBackupV2b fetchB (encodeOperationID ns name) =
        .okOut (vsbProgressRecordB vsb) ∧
      ((vsbProgressRecordB vsb).completed = true ↔
        vsb.status.phase = SnapMoverBackupPhaseCompleted) ∧
      (vsb.status.phase = SnapMoverBackupPhaseFailed →
        (vsbProgressRecordB vsb).err = "VolumeSnapshotBackup has a failed status" ∧
          (vsbProgressRecordB vsb).completed = false)) := by
  refine ⟨⟨?_, ?_, ?_⟩, ⟨?_, ?_, ?_⟩, ⟨?_, ?_, ?_⟩⟩
  · exact progressBackupV2a_encode fetchB now ns name vsb hns hname hfB
  · exact vsbProgressRecordA_completed_iff vsb now
  · exact fun hB hF => vsbProgressRecordA_failed vsb now hB hF
  · exact progressRestoreV2_encode fetchR now ns name vsr hns hname hfR
  · exact vsrProgressRecord_completed_iff vsr now
  · exact fun hB hF => vsrProgressRecord_failed vsr now hB hF
  · exact progressBackupV2b_encode fetchB ns name vsb hns hname hfB
  · exact vsbProgressRecordB_completed_iff vsb
  · exact fun hF => vsbProgressRecordB_failed vsb hF

/-- In-progress request used to witness the amended C1 theorem. -/
def inProgressVSB : VolumeSnapshotBackup :=
  { status := { phase := "InProgress", batchingStatus := "Queued" } }

/-- In-progress restore request used to witness the amended C1 theorem. -/
def inProgressVSR : VolumeSnapshotRestore :=
  { status := { phase := "InProgress", batchingStatus := "Queued" } }

/-- Witness for the amended C1 theorem at a concrete handle and store. -/
theorem progress_completed_characterisation_witness :
    progressBackupV2a (fun _ _ => .ok inProgressVSB) 3 (encodeOperationID ['n'] ['m']) =
      .ok (vsbProgressRecordA inProgressVSB 3) :=
  (progress_completed_characterisation (fun _ _ => .ok inProgressVSB)
    (fun _ _ => .ok inProgressVSR) ['n'] ['m'] inProgressVSB inProgressVSR 3
    (by decide) (by decide) rfl rfl).1.1

/-- Claim C2 counterexample: the handle "/" splits into two empty segments,
which the claim says must be rejected with `InvalidOperationID` before any
fetch; instead the code fetches (the injected store error comes back wrapped,
not `InvalidOperationID`). -/
theorem progress_accepts_empty_segments :
    progressBackupV2a (fun _ _ => .error .notFound) 0 ['/'] =
      .error (.wrapped "error fetching volumesnapshotbackup CR for operationID"
        .notFound) ∧
    progressBackupV2a (fun _ _ => .error .notFound) 0 ['/'] ≠
      .error (.invalidOperationID ['/']) := by
  refine ⟨rfl, fun h => ?_⟩
  rw [show progressBackupV2a (fun _ _ => .error .notFound) 0 ['/'] =
    .error (.wrapped "error fetching volumesnapshotbackup CR for operationID"
      .notFound) from rfl] at h
  simp at h

/-- Claim C2 (amended): the first `Progress` variant fails with
`InvalidOperationID` — independently of the store — exactly when the handle is
empty or splitting on "/" does not yield exactly two segments; the segments
are not checked for non-emptiness, so any two-segment handle (even "/")
reaches the fetch.  The second variant rejects only the empty handle and
panics (index out of range) on a non-empty handle with no separator. -/
theorem progress_handle_validation
    (fetch : Str → Str → Except GoError VolumeSnapshotBackup) (now : Nat)
    (operationID : Str) :
    ((operationID = [] ∨ (splitSlash operationID).length ≠ 2) →
      progressBackupV2a fetch now operationID =
        .error (.invalidOperationID operationID)) ∧
    ((splitSlash operationID).length = 2 → ∀ e : GoError,
      progressBackupV2a (fun _ _ => .error e) now operationID =
        .error (.wrapped "error fetching volumesnapshotbackup CR for operationID" e)) ∧
    (progressBackupV2b fetch [] = .errOut (.invalidOperationID [])) ∧
    (operationID ≠ [] → (splitSlash operationID).length = 1 →
      progressBackupV2b fetch operationID = .panicked) := by
  refine ⟨?_, ?_, rfl, ?_⟩
  · intro h
    by_cases h0 : operationID = []
    · simp [progressBackupV2a, h0]
    · have hlen : (splitSlash operationID).length ≠ 2 := by
        rcases h with h | h
        · exact absurd h h0
        · exact h
      unfold progressBackupV2a
      rw [if_neg h0]
      rcases hs : splitSlash operationID with _ | ⟨a, _ | ⟨b, _ | ⟨c, rest⟩⟩⟩
      · exact absurd hs (splitSlash_ne_nil operationID)
      · rfl
      · rw [hs] at hlen; simp at hlen
      · rfl
  · intro hlen e
    have h0 : operationID ≠ [] := by
      intro h0
      rw [h0] at hlen
      simp [splitSlash] at hlen
    rcases hs : splitSlash operationID with _ | ⟨a, _ | ⟨b, _ | ⟨c, rest⟩⟩⟩
    · exact absurd hs (splitSlash_ne_nil operationID)
    · rw [hs] at hlen; simp at hlen
    · unfold progressBackupV2a
      rw [if_neg h0, hs]
    · rw [hs] at hlen; simp at hlen
  · intro h0 hlen
    rcases hs : splitSlash operationID with _ | ⟨a, _ | ⟨b, rest⟩⟩
    · exact absurd hs (splitSlash_ne_nil operationID)
    · unfold progressBackupV2b
      rw [if_neg h0, hs]
    · rw [hs] at hlen; simp at hlen

/-- Witness for the amended C2 theorem: the one-segment handle "a" is
rejected with `InvalidOperationID` by the first variant. -/
theorem progress_handle_validation_witness :
    progressBackupV2a (fun _ _ => .error .notFound) 0 ['a'] =
      .error (.invalidOperationID ['a']) :=
  (progress_handle_validation (fun _ _ => .error .notFound) 0 ['a']).1
    (Or.inr (by decide))

/-! ## Status Bridge -/

/-- Modelled from the spec: the whitelisted annotation key for the restic
repository.  The util constants file is not under src, so the five key
strings are representative; the development relies only on their being
pairwise distinct, as Go constants are. -/
def VolumeSnapshotMoverResticRepository : String := "datamover.io/restic-repository"

/-- Modelled from the spec: the whitelisted annotation key for the source-PVC
name. -/
def VolumeSnapshotMoverSourcePVCName : String := "datamover.io/source-pvc-name"

/-- Modelled from the spec: the whitelisted annotation key for the source-PVC
size. -/
def VolumeSnapshotMoverSourcePVCSize : String := "datamover.io/source-pvc-size"

/-- Modelled from the spec: the whitelisted annotation key for the source-PVC
storage class. -/
def VolumeSnapshotMoverSourcePVCStorageClass : String :=
  "datamover.io/source-pvc-storageclass"

/-- Modelled from the spec: the whitelisted annotation key for the
volume-snapshot-class name. -/
def VolumeSnapshotMoverVolumeSnapshotClass : String :=
  "datamover.io/source-volumesnapshotclass"

/-- `util.AddAnnotations`: creates the annotation map if nil, then writes
every supplied key-value pair. -/
def AddAnnotations (o : ObjectMeta) (vals : List (String × String)) : ObjectMeta :=
  { o with
    annotations :=
      some (vals.foldl (fun m kv => mapSet m kv.1 kv.2) (o.annotations.getD [])) }

/-- The `vals` map built by `VolumeSnapshotBackupBackupItemAction.Execute`
from the request's status. -/
def statusAnnotationValues (st : VolumeSnapshotBackupStatus) : List (String × String) :=
  [(VolumeSnapshotMoverResticRepository, st.resticRepository),
   (VolumeSnapshotMoverSourcePVCName, st.sourcePVCData.name),
   (VolumeSnapshotMoverSourcePVCSize, st.sourcePVCData.size),
   (VolumeSnapshotMoverSourcePVCStorageClass, st.sourcePVCData.storageClassName),
   (VolumeSnapshotMoverVolumeSnapshotClass, st.volumeSnapshotClassName)]

/-- The fixed annotation-key whitelist of the Status Bridge. -/
def statusAnnotationKeys : List String :=
  [VolumeSnapshotMoverResticRepository,
   VolumeSnapshotMoverSourcePVCName,
   VolumeSnapshotMoverSourcePVCSize,
   VolumeSnapshotMoverSourcePVCStorageClass,
   VolumeSnapshotMoverVolumeSnapshotClass]

/-- The annotation step of `VolumeSnapshotBackupBackupItemAction.Execute`:
`util.AddAnnotations(&vsb.ObjectMeta, vals)`. -/
def annotateStatus (o : ObjectMeta) (st : VolumeSnapshotBackupStatus) : ObjectMeta :=
  AddAnnotations o (statusAnnotationValues st)

/-- The five whitelisted values as read back from annotations by the restore
item actions (`vsb.Annotations[util....]`). -/
structure ExtractedStatus where
  resticRepository : String
  sourcePVCName : String
  sourcePVCSize : String
  sourcePVCStorageClass : String
  volumeSnapshotClassName : String
deriving DecidableEq, Repr

/-- The annotation reads performed by the restore item actions when building
the VolumeSnapshotRestore spec. -/
def extractStatusAnnotations (o : ObjectMeta) : ExtractedStatus :=
  { resticRepository := goMapGet o.annotations VolumeSnapshotMoverResticRepository,
    sourcePVCName := goMapGet o.annotations VolumeSnapshotMoverSourcePVCName,
    sourcePVCSize := goMapGet o.annotations VolumeSnapshotMoverSourcePVCSize,
    sourcePVCStorageClass :=
      goMapGet o.annotations VolumeSnapshotMoverSourcePVCStorageClass,
    volumeSnapshotClassName :=
      goMapGet o.annotations VolumeSnapshotMoverVolumeSnapshotClass }

theorem lookup_mapSet_self (m : List (String × String)) (k v : String) :
    mapLookup (mapSet m k v) k = some v := by
  induction m with
  | nil => simp [mapSet, mapLookup]
  | cons kv rest ih =>
    rcases kv with ⟨k1, v1⟩
    by_cases h : k1 = k
    · simp [mapSet, h, mapLookup]
    · simp [mapSet, h, mapLookup, ih]

theorem lookup_mapSet_ne (m : List (String × String)) (k k0 v : String) (h : k0 ≠ k) :
    mapLookup (mapSet m k0 v) k = mapLookup m k := by
  induction m with
  | nil => simp [mapSet, mapLookup, h]
  | cons kv rest ih =>
    rcases kv with ⟨k1, v1⟩
    by_cases h1 : k1 = k0
    · simp [mapSet, h1, mapLookup, h]
    · by_cases h2 : k1 = k
      · simp [mapSet, h1, mapLookup, h2, Ne.symm h]
      · simp [mapSet, h1, mapLookup, h2, ih]

theorem lookup_foldl_mapSet (pairs : List (String × String))
    (base : List (String × String)) (k : String) (hk : k ∉ pairs.map Prod.fst) :
    mapLookup (pairs.foldl (fun m kv => mapSet m kv.1 kv.2) base) k =
      mapLookup base k := by
  induction pairs generalizing base with
  | nil => rfl
  | cons kv rest ih =>
    simp only [List.map_cons, List.mem_cons, not_or] at hk
    rw [List.foldl_cons, ih _ hk.2, lookup_mapSet_ne _ _ _ _ (Ne.symm hk.1)]

/-- Claim C6: writing a status snapshot whose five whitelisted fields are
arbitrary non-empty strings as annotations, then reading the same annotation
keys back, reproduces the snapshot exactly, field for field. -/
theorem statusBridge_roundTrip (o : ObjectMeta) (st : VolumeSnapshotBackupStatus)
    (_h1 : st.resticRepository ≠ "") (_h2 : st.sourcePVCData.name ≠ "")
    (_h3 : st.sourcePVCData.size ≠ "") (_h4 : st.sourcePVCData.storageClassName ≠ "")
    (_h5 : st.volumeSnapshotClassName ≠ "") :
    extractStatusAnnotations (annotateStatus o st) =
      { resticRepository := st.resticRepository,
        sourcePVCName := st.sourcePVCData.name,
        sourcePVCSize := st.sourcePVCData.size,
        sourcePVCStorageClass := st.sourcePVCData.storageClassName,
        volumeSnapshotClassName := st.volumeSnapshotClassName } := by
  simp [extractStatusAnnotations, annotateStatus, AddAnnotations,
    statusAnnotationValues, goMapGet, lookup_mapSet_ne, lookup_mapSet_self,
    VolumeSnapshotMoverResticRepository, VolumeSnapshotMoverSourcePVCName,
    VolumeSnapshotMoverSourcePVCSize, VolumeSnapshotMoverSourcePVCStorageClass,
    VolumeSnapshotMoverVolumeSnapshotClass]

/-- Witness for C6 on an object with an unrelated pre-existing annotation. -/
theorem statusBridge_roundTrip_witness :
    extractStatusAnnotations
      (annotateStatus { annotations := some [("other", "x")] }
        { resticRepository := "repo", volumeSnapshotClassName := "vsclass",
          sourcePVCData := { name := "pvc", size := "1Gi", storageClassName := "gp2" } }) =
      { resticRepository := "repo", sourcePVCName := "pvc", sourcePVCSize := "1Gi",
        sourcePVCStorageClass := "gp2", volumeSnapshotClassName := "vsclass" } :=
  statusBridge_roundTrip { annotations := some [("other", "x")] }
    { resticRepository := "repo", volumeSnapshotClassName := "vsclass",
      sourcePVCData := { name := "pvc", size := "1Gi", storageClassName := "gp2" } }
    (by decide) (by decide) (by decide) (by decide) (by decide)

/-- Claim C7: writing the whitelisted status fields as annotations leaves
every annotation key outside the whitelist bound exactly as before (absent
keys stay absent, present keys keep their value), and the annotation map is
created when the object had none. -/
theorem annotate_frame_preserving (o : ObjectMeta) (st : VolumeSnapshotBackupStatus)
    (k : String) (hk : k ∉ statusAnnotationKeys) :
    goMapLookup (annotateStatus o st).annotations k = goMapLookup o.annotations k ∧
      (annotateStatus o st).annotations.isSome = true := by
  constructor
  · have hk2 : k ∉ (statusAnnotationValues st).map Prod.fst := by
      simpa [statusAnnotationValues, statusAnnotationKeys] using hk
    simpa [annotateStatus, AddAnnotations, goMapLookup] using
      lookup_foldl_mapSet (statusAnnotationValues st) (o.annotations.getD []) k hk2
  · rfl

/-- Witness for C7: the unrelated key "other" keeps its value, and an object
with a nil annotation map gets one. -/
theorem annotate_frame_preserving_witness :
    goMapLookup
        (annotateStatus { annotations := some [("other", "x")] }
          { resticRepository := "repo" }).annotations "other" =
      goMapLookup (some [("other", "x")]) "other" ∧
    (annotateStatus ({} : ObjectMeta) { resticRepository := "repo" }).annotations.isSome
      = true :=
  ⟨(annotate_frame_preserving { annotations := some [("other", "x")] }
      { resticRepository := "repo" } "other" (by decide)).1,
   (annotate_frame_preserving {} { resticRepository := "repo" } "other" (by decide)).2⟩

/-! ## Deletion -/

/-- `velerov1api.BackupNameLabel` from the external velero API package. -/
def velerov1BackupNameLabel : String := "velero.io/backup-name"

/-- `util.HasBackupLabel`: false when the label map is nil or the backup name
is blank, otherwise compares the backup-name label against the external
`label.GetValidName` of the owner's name; `validName` is that external
function, passed as a parameter. -/
def HasBackupLabel (validName : String → String) (o : ObjectMeta)
    (backupName : String) : Bool :=
  match o.labels with
  | none => false
  | some labels =>
    if backupName.trim.length = 0 then false
    else (mapLookup labels velerov1BackupNameLabel).getD "" == validName backupName

/-- Result of the store's `Delete` call. -/
inductive DeleteOutcome where
  | success
  | notFoundErr
  | otherErr (e : GoError)
deriving DecidableEq, Repr

/-- `VolumeSnapshotBackupDeleteItemAction.Execute` after conversion of the
input item: skip with success unless the ownership label matches the backup
being deleted; otherwise delete, treating a NotFound error from the store as
success. -/
def deleteActionExecute (validName : String → String) (vsbMeta : ObjectMeta)
    (backupName : String) (deleteResult : DeleteOutcome) : Except GoError Unit :=
  if HasBackupLabel validName vsbMeta backupName then
    match deleteResult with
    | .success => .ok ()
    | .notFoundErr => .ok ()
    | .otherErr e => .error e
  else .ok ()

/-- Claim C8: the delete action deletes only objects whose backup-name label
matches the owning operation; objects with a missing or different label are
skipped with success (the store's answer is irrelevant), a NotFound delete
error is success, and an error is surfaced only for a matching label with a
non-NotFound store error. -/
theorem delete_action_guarded (validName : String → String) (vsbMeta : ObjectMeta)
    (backupName : String) :
    (∀ d, HasBackupLabel validName vsbMeta backupName = false →
      deleteActionExecute validName vsbMeta backupName d = .ok ()) ∧
    (vsbMeta.labels = none →
      HasBackupLabel validName vsbMeta backupName = false) ∧
    (∀ labels, vsbMeta.labels = some labels →
      (mapLookup labels velerov1BackupNameLabel).getD "" ≠ validName backupName →
      HasBackupLabel validName vsbMeta backupName = false) ∧
    (deleteActionExecute validName vsbMeta backupName .notFoundErr = .ok ()) ∧
    (∀ d e, deleteActionExecute validName vsbMeta backupName d = .error e →
      HasBackupLabel validName vsbMeta backupName = true ∧ d = .otherErr e) := by
  refine ⟨?_, ?_, ?_, ?_, ?_⟩
  · intro d hl
    simp [deleteActionExecute, hl]
  · intro h
    simp [HasBackupLabel, h]
  · intro labels hl hne
    simp only [HasBackupLabel, hl]
    by_cases ht : backupName.trim.length = 0
    · simp [ht]
    · simp [ht, hne]
  · by_cases hl : HasBackupLabel validName vsbMeta backupName <;>
      simp [deleteActionExecute, hl]
  · intro d e h
    by_cases hl : HasBackupLabel validName vsbMeta backupName
    · cases d with
      | success => simp [deleteActionExecute, hl] at h
      | notFoundErr => simp [deleteActionExecute, hl] at h
      | otherErr e0 =>
        simp only [deleteActionExecute, hl, if_true] at h
        cases h
        exact ⟨hl, rfl⟩
    · simp [deleteActionExecute, hl] at h

/-- Witness for C8: an object with no labels is skipped with success even
when the store would have answered with an error. -/
theorem delete_action_guarded_witness :
    deleteActionExecute (fun s => s) {} "backup-1" (.otherErr .notFound) = .ok () :=
  (delete_action_guarded (fun s => s) {} "backup-1").1 (.otherErr .notFound) rfl

/-! ## Cancellation -/

/-- `VolumeSnapshotContentBackupItemActionV2.Cancel` (both variants): the
body is `return nil`.  A coordinator/store state `s` of arbitrary type is
threaded through to express that nothing is fetched or mutated. -/
def cancelBackupV2 {σ : Type} (operationID : Str) (backupName : String) (s : σ) :
    (Except GoError Unit) × σ := (.ok (), s)

/-- `VolumeSnapshotBackupRestoreItemActionV2.Cancel`: the body is
`return nil`. -/
def cancelRestoreV2 {σ : Type} (operationID : Str) (restoreName : String) (s : σ) :
    (Except GoError Unit) × σ := (.ok (), s)

/-- Claim C9: Cancel is a total no-op — for every handle (including empty or
malformed ones), owner name and state, both Cancel implementations return
success and leave the state untouched. -/
theorem cancel_total_noop {σ : Type} (operationID : Str) (name : String) (s : σ) :
    cancelBackupV2 operationID name s = (.ok (), s) ∧
    cancelRestoreV2 operationID name s = (.ok (), s) :=
  ⟨rfl, rfl⟩

/-! ## Restore item actions -/

/-- Modelled from the spec: the ownership label naming the originating
restore (`util.RestoreNameLabel`; the util constants file is not under
src). -/
def RestoreNameLabel : String := "velero.io/restore-name"

/-- Modelled from the spec: the label naming the source PVC
(`util.PersistentVolumeClaimLabel`; the util constants file is not under
src). -/
def PersistentVolumeClaimLabel : String := "velero.io/persistent-volume-claim-name"

/-- `velero.RestoreItemActionExecuteOutput`, restricted to the fields this
plugin writes. -/
structure RestoreItemActionExecuteOutput where
  skipRestore : Bool := false
  operationID : Str := []
deriving DecidableEq, Repr

/-- The VolumeSnapshotRestore crafted by the restore item actions from the
backed-up request's annotations and spec. -/
def craftVSRFromVSB (restoreName : String) (vsb : VolumeSnapshotBackup) :
    VolumeSnapshotRestore :=
  { metadata :=
      { generateName := "vsr-", nspace := vsb.metadata.nspace,
        labels := some
          [(RestoreNameLabel, restoreName),
           (PersistentVolumeClaimLabel,
             goMapGet vsb.metadata.annotations VolumeSnapshotMoverSourcePVCName)] },
    spec :=
      { resticSecretRefName := vsb.spec.resticSecretRefName,
        backedUpPVCData :=
          { name := goMapGet vsb.metadata.annotations VolumeSnapshotMoverSourcePVCName,
            size := goMapGet vsb.metadata.annotations VolumeSnapshotMoverSourcePVCSize,
            storageClassName :=
              goMapGet vsb.metadata.annotations VolumeSnapshotMoverSourcePVCStorageClass },
        resticRepository :=
          goMapGet vsb.metadata.annotations VolumeSnapshotMoverResticRepository,
        volumeSnapshotClassName :=
          goMapGet vsb.metadata.annotations VolumeSnapshotMoverVolumeSnapshotClass,
        protectedNamespace := vsb.spec.protectedNamespace } }

/-- `if val, ok := NamespaceMapping[vsr.GetNamespace()]; ok { vsr.SetNamespace(val) }`. -/
def applyNamespaceMapping (nsMapping : List (String × String))
    (vsr : VolumeSnapshotRestore) : VolumeSnapshotRestore :=
  match mapLookup nsMapping vsr.metadata.nspace with
  | some v => { vsr with metadata := { vsr.metadata with nspace := v } }
  | none => vsr

/-- `VolumeSnapshotBackupRestoreItemActionV2.Execute`: crafts and creates a
VolumeSnapshotRestore, fetches it back for its server-assigned name, and
returns SkipRestore together with the operation handle.  `create` returns the
stored object (Go mutates its argument in place, filling the generated name);
`getBack` is the store Get. -/
def vsbRestoreExecuteV2 (restoreName : String) (nsMapping : List (String × String))
    (vsb : VolumeSnapshotBackup)
    (create : VolumeSnapshotRestore → Except GoError VolumeSnapshotRestore)
    (getBack : String → String → Except GoError VolumeSnapshotRestore) :
    Except GoError RestoreItemActionExecuteOutput :=
  match create (applyNamespaceMapping nsMapping (craftVSRFromVSB restoreName vsb)) with
  | .error e => .error (.wrapped "error creating volumesnapshotrestore CR" e)
  | .ok created =>
    match getBack created.metadata.nspace created.metadata.name with
    | .error e =>
      .error (.wrapped "error fetching volumesnapshotrestore CR for suppyling operationID" e)
    | .ok fetched =>
      .ok { skipRestore := true,
            operationID :=
              encodeOperationID fetched.metadata.nspace.toList fetched.metadata.name.toList }

/-- `VolumeSnapshotRestoreRestoreItemAction.Execute` (V1): crafts and creates
the VolumeSnapshotRestore and skips restoring the backed-up request; no
operation handle is produced. -/
def vsbRestoreExecuteV1 (restoreName : String) (nsMapping : List (String × String))
    (vsb : VolumeSnapshotBackup)
    (create : VolumeSnapshotRestore → Except GoError VolumeSnapshotRestore) :
    Except GoError RestoreItemActionExecuteOutput :=
  match create (applyNamespaceMapping nsMapping (craftVSRFromVSB restoreName vsb)) with
  | .error e => .error (.wrapped "error creating volumesnapshotrestore CR" e)
  | .ok _ => .ok { skipRestore := true }

/-- Claim C10: every successful Execute of the restore item actions for a
backed-up request returns an output with SkipRestore = true; the persisted
request itself is never restored, only a fresh restore request is created
from its annotations. -/
theorem restore_execute_skips_restore (restoreName : String)
    (nsMapping : List (String × String)) (vsb : VolumeSnapshotBackup)
    (create : VolumeSnapshotRestore → Except GoError VolumeSnapshotRestore)
    (getBack : String → String → Except GoError VolumeSnapshotRestore)
    (out : RestoreItemActionExecuteOutput) :
    (vsbRestoreExecuteV2 restoreName nsMapping vsb create getBack = .ok out →
      out.skipRestore = true) ∧
    (vsbRestoreExecuteV1 restoreName nsMapping vsb create = .ok out →
      out.skipRestore = true) := by
  constructor
  · intro h
    unfold vsbRestoreExecuteV2 at h
    cases hc : create (applyNamespaceMapping nsMapping (craftVSRFromVSB restoreName vsb)) with
    | error e => simp only [hc] at h; cases h
    | ok created =>
      simp only [hc] at h
      cases hg : getBack created.metadata.nspace created.metadata.name with
      | error e => simp only [hg] at h; cases h
      | ok fetched =>
        simp only [hg] at h
        cases h
        rfl
  · intro h
    unfold vsbRestoreExecuteV1 at h
    cases hc : create (applyNamespaceMapping nsMapping (craftVSRFromVSB restoreName vsb)) with
    | error e => simp only [hc] at h; cases h
    | ok created =>
      simp only [hc] at h
      cases h
      rfl

/-- Witness for C10 against a store that assigns the name "vsr-1" in
namespace "ns". -/
theorem restore_execute_skips_restore_witness :
    ({ skipRestore := true,
       operationID := ['n', 's', '/', 'v', 's', 'r', '-', '1'] } :
      RestoreItemActionExecuteOutput).skipRestore = true :=
  (restore_execute_skips_restore "r1" [] {} (fun v => .ok v)
    (fun _ _ => .ok { metadata := { nspace := "ns", name := "vsr-1" } })
    { skipRestore := true,
      operationID := ['n', 's', '/', 'v', 's', 'r', '-', '1'] }).1 rfl

/-! ## Reconciliation Poller -/

/-- One observation by a poll condition function. -/
inductive PollStep (A : Type) where
  | done (a : A)
  | notReady
  | failed (e : GoError)

/-- Modelled from the spec: the bounded polling primitive (the external
`wait.PollImmediate`, described in the spec as WaitUntil).  Discrete time:
the condition runs once immediately and then once per interval tick; `fuel`
is the number of remaining ticks (timeout divided by interval); exhausting it
with the condition still not ready yields `errWaitTimeout`; a failing
condition aborts at once. -/
def pollLoop {A : Type} (cond : Nat → PollStep A) : Nat → Nat → Except GoError A
  | i, 0 =>
    match cond i with
    | .done a => .ok a
    | .failed e => .error e
    | .notReady => .error .errWaitTimeout
  | i, fuel + 1 =>
    match cond i with
    | .done a => .ok a
    | .failed e => .error e
    | .notReady => pollLoop cond (i + 1) fuel

/-- `wait.PollImmediate(interval, timeout, cond)`: the immediate call is
iteration 0. -/
def pollImmediate {A : Type} (cond : Nat → PollStep A) (fuel : Nat) :
    Except GoError A :=
  pollLoop cond 0 fuel

/-- `ReconciledReasonError` (src constant). -/
def ReconciledReasonError : String := "Error"

/-- `ConditionReconciled` (src constant). -/
def ConditionReconciled : String := "Reconciled"

/-- `metav1.ConditionFalse` from the external apimachinery package. -/
def metav1ConditionFalse : String := "False"

/-- The fixed poll interval `interval := 5 * time.Second`, in seconds. -/
def pollIntervalSeconds : Nat := 5

/-- Modelled from the spec: the external `time.ParseDuration`, restricted to
the integer-with-single-unit forms relevant here; result in seconds. -/
def parseGoDuration (s : String) : Option Nat :=
  let cs := s.toList
  let digits := cs.takeWhile Char.isDigit
  let rest := cs.dropWhile Char.isDigit
  if digits.isEmpty then none
  else
    let n := digits.foldl (fun a c => 10 * a + (c.toNat - 48)) 0
    match rest with
    | ['s'] => some n
    | ['m'] => some (60 * n)
    | ['h'] => some (3600 * n)
    | _ => none

/-- `timeoutValue`: the configured override when the timeout environment
variable is set non-empty, else the default "10m". -/
def datamoverTimeoutValue (env : String) : String :=
  if env.length > 0 then env else "10m"

/-- The terminal-failure test applied to one status condition:
`Status == ConditionFalse && Reason == ReconciledReasonError && Type == ConditionReconciled`. -/
def isTerminalCondition (c : Condition) : Bool :=
  c.status == metav1ConditionFalse && c.reason == ReconciledReasonError &&
    c.condType == ConditionReconciled

/-- Classification of a fetched request by the poll closure in
`GetVolumeSnapshotbackupWithStatusData`: no conditions yet or missing status
data keeps polling, a Reconciled=False/Error condition is a terminal
failure, full status data is success. -/
def vsbStatusPollStep (vsb : VolumeSnapshotBackup) : PollStep VolumeSnapshotBackup :=
  if vsb.status.conditions.length = 0 then .notReady
  else if vsb.status.conditions.any isTerminalCondition then
    .failed (.terminalFailure vsb.metadata.name)
  else if vsb.status.resticRepository.length = 0 ∨
      vsb.status.sourcePVCData.name.length = 0 ∨
      vsb.status.sourcePVCData.size.length = 0 ∨
      vsb.status.sourcePVCData.storageClassName.length = 0 ∨
      vsb.status.volumeSnapshotClassName.length = 0 then .notReady
  else .done vsb

/-- The full poll closure: a failing store Get aborts with the wrapped
error, otherwise the fetched request is classified. -/
def getVSBPollStep (fetch : Nat → Except GoError VolumeSnapshotBackup) (i : Nat) :
    PollStep VolumeSnapshotBackup :=
  match fetch i with
  | .error e => .failed (.wrapped "failed to get volumesnapshotbackup" e)
  | .ok vsb => vsbStatusPollStep vsb

/-- `util.GetVolumeSnapshotbackupWithStatusData`: parse the (overridable)
timeout, then poll the store every 5 seconds.  `env` is the value of the
timeout environment variable ("" when unset); `fetch` is the store Get at
each iteration. -/
def GetVolumeSnapshotbackupWithStatusData (env : String)
    (fetch : Nat → Except GoError VolumeSnapshotBackup) :
    Except GoError VolumeSnapshotBackup :=
  match parseGoDuration (datamoverTimeoutValue env) with
  | none => .error (.wrapped "error parsing the datamover timout" (.other "parse"))
  | some timeoutSeconds =>
    pollImmediate (getVSBPollStep fetch) (timeoutSeconds / pollIntervalSeconds)

theorem pollLoop_zero {A : Type} (cond : Nat → PollStep A) (i : Nat) :
    pollLoop cond i 0 =
      match cond i with
      | .done a => .ok a
      | .failed e => .error e
      | .notReady => .error .errWaitTimeout := rfl

theorem pollLoop_succ {A : Type} (cond : Nat → PollStep A) (i f : Nat) :
    pollLoop cond i (f + 1) =
      match cond i with
      | .done a => .ok a
      | .failed e => .error e
      | .notReady => pollLoop cond (i + 1) f := rfl

theorem pollLoop_failed {A : Type} (cond : Nat → PollStep A) (e : GoError) :
    ∀ (k s fuel : Nat), k ≤ fuel →
      (∀ j, j < k → cond (s + j) = .notReady) → cond (s + k) = .failed e →
      pollLoop cond s fuel = .error e := by
  intro k
  induction k with
  | zero =>
    intro s fuel _h _hnr hk
    rw [Nat.add_zero] at hk
    cases fuel with
    | zero => rw [pollLoop_zero, hk]
    | succ f => rw [pollLoop_succ, hk]
  | succ k ih =>
    intro s fuel hkf hnr hk
    cases fuel with
    | zero => omega
    | succ f =>
      have h0 : cond s = .notReady := by simpa using hnr 0 (Nat.succ_pos k)
      rw [pollLoop_succ, h0]
      show pollLoop cond (s + 1) f = .error e
      refine ih (s + 1) f (Nat.le_of_succ_le_succ hkf) (fun j hj => ?_) ?_
      · have hidx : s + 1 + j = s + (j + 1) := by omega
        rw [hidx]
        exact hnr (j + 1) (Nat.succ_lt_succ hj)
      · have hidx : s + 1 + k = s + (k + 1) := by omega
        rw [hidx]
        exact hk

theorem pollLoop_timeout {A : Type} (cond : Nat → PollStep A) :
    ∀ (fuel s : Nat), (∀ j, j ≤ fuel → cond (s + j) = .notReady) →
      pollLoop cond s fuel = .error .errWaitTimeout := by
  intro fuel
  induction fuel with
  | zero =>
    intro s h
    have h0 : cond s = .notReady := by simpa using h 0 (Nat.le_refl 0)
    rw [pollLoop_zero, h0]
  | succ f ih =>
    intro s h
    have h0 : cond s = .notReady := by simpa using h 0 (Nat.zero_le _)
    rw [pollLoop_succ, h0]
    show pollLoop cond (s + 1) f = .error .errWaitTimeout
    refine ih (s + 1) (fun j hj => ?_)
    have hidx : s + 1 + j = s + (j + 1) := by omega
    rw [hidx]
    exact h (j + 1) (Nat.succ_le_succ hj)

/-- Claim C4: the bounded poller aborts at the iteration where the fetched
request first shows the known-bad terminal condition (for every position
within an arbitrary remaining budget, so no waiting-out of the remaining
timeout), aborts at once with the wrapped error when a fetch itself errors,
and returns `errWaitTimeout` when the data never becomes ready within the
budget; the timeout defaults to "10m" (600 seconds, i.e. 120 polls at the
fixed 5-second interval) and is overridable via the environment. -/
theorem poller_bounded_failfast :
    (∀ env T fetch k vsbBad,
      parseGoDuration (datamoverTimeoutValue env) = some T →
      k ≤ T / pollIntervalSeconds →
      (∀ j, j < k → getVSBPollStep fetch j = .notReady) →
      fetch k = .ok vsbBad →
      vsbBad.status.conditions.length ≠ 0 →
      vsbBad.status.conditions.any isTerminalCondition = true →
      GetVolumeSnapshotbackupWithStatusData env fetch =
        .error (.terminalFailure vsbBad.metadata.name)) ∧
    (∀ env T fetch k e,
      parseGoDuration (datamoverTimeoutValue env) = some T →
      k ≤ T / pollIntervalSeconds →
      (∀ j, j < k → getVSBPollStep fetch j = .notReady) →
      fetch k = .error e →
      GetVolumeSnapshotbackupWithStatusData env fetch =
        .error (.wrapped "failed to get volumesnapshotbackup" e)) ∧
    (∀ env T fetch,
      parseGoDuration (datamoverTimeoutValue env) = some T →
      (∀ j, j ≤ T / pollIntervalSeconds → getVSBPollStep fetch j = .notReady) →
      GetVolumeSnapshotbackupWithStatusData env fetch = .error .errWaitTimeout) ∧
    parseGoDuration (datamoverTimeoutValue "") = some 600 ∧
    parseGoDuration (datamoverTimeoutValue "2m") = some 120 ∧
    pollIntervalSeconds = 5 := by
  refine ⟨?_, ?_, ?_, by decide, by decide, rfl⟩
  · intro env T fetch k vsbBad hparse hkT hnr hfetch hlen hany
    have hstep : getVSBPollStep fetch k =
        .failed (.terminalFailure vsbBad.metadata.name) := by
      simp [getVSBPollStep, hfetch, vsbStatusPollStep, hlen, hany]
    simp only [GetVolumeSnapshotbackupWithStatusData, hparse, pollImmediate]
    refine pollLoop_failed (getVSBPollStep fetch) _ k 0 (T / pollIntervalSeconds)
      hkT (fun j hj => ?_) ?_
    · simpa using hnr j hj
    · simpa using hstep
  · intro env T fetch k e hparse hkT hnr hfetch
    have hstep : getVSBPollStep fetch k =
        .failed (.wrapped "failed to get volumesnapshotbackup" e) := by
      simp [getVSBPollStep, hfetch]
    simp only [GetVolumeSnapshotbackupWithStatusData, hparse, pollImmediate]
    refine pollLoop_failed (getVSBPollStep fetch) _ k 0 (T / pollIntervalSeconds)
      hkT (fun j hj => ?_) ?_
    · simpa using hnr j hj
    · simpa using hstep
  · intro env T fetch hparse hnr
    simp only [GetVolumeSnapshotbackupWithStatusData, hparse, pollImmediate]
    refine pollLoop_timeout (getVSBPollStep fetch) (T / pollIntervalSeconds) 0
      (fun j hj => ?_)
    simpa using hnr j hj

/-- A request whose Reconciled condition reports a terminal error. -/
def terminalVSB : VolumeSnapshotBackup :=
  { metadata := { name := "vsb-bad" },
    status :=
      { conditions :=
          [{ condType := "Reconciled", status := "False", reason := "Error" }] } }

/-- Witness for C4: with the default timeout, a request that is terminally
failed at the very first poll aborts the wait immediately. -/
theorem poller_bounded_failfast_witness :
    GetVolumeSnapshotbackupWithStatusData "" (fun _ => .ok terminalVSB) =
      .error (.terminalFailure "vsb-bad") :=
  poller_bounded_failfast.1 "" 600 (fun _ => .ok terminalVSB) 0 terminalVSB
    (by decide) (by decide) (fun j hj => absurd hj (Nat.not_lt_zero j)) rfl
    (by decide) (by decide)

/-! ## Resource Lifecycle Manager (backup-side creation) -/

/-- Modelled from the spec: `util.BackupNameLabel` (the util constants file
is not under src). -/
def BackupNameLabel : String := "velero.io/backup-name"

/-- Modelled from the spec: `util.VolumeSnapshotBackupVolumeSnapshotContent`,
the ownership label tying a request to its source VolumeSnapshotContent. -/
def VolumeSnapshotBackupVolumeSnapshotContent : String :=
  "velero.io/volume-snapshot-content-name"

/-- `snapshotv1api.VolumeSnapshotContent`, restricted to the fields used. -/
structure VolumeSnapshotContent where
  metadata : ObjectMeta := {}
  volumeSnapshotRefName : String := ""
  volumeSnapshotRefNamespace : String := ""
deriving DecidableEq, Repr

/-- `util.VSCBelongsToBackup`: compares the content's backup-name label with
the current backup's name. -/
def VSCBelongsToBackup (backupName : String) (snapCont : VolumeSnapshotContent) :
    Bool :=
  goMapGet snapCont.metadata.labels BackupNameLabel == backupName

/-- `util.VSBExistsForVSC`: lists requests labelled for the given
VolumeSnapshotContent.  Faithful to src: the function never inspects the
returned items — a successful List always yields `false`, and the
AlreadyExists test is applied to the List error, where it cannot occur. -/
def VSBExistsForVSC (listResult : Except GoError (List VolumeSnapshotBackup)) :
    Except GoError Bool :=
  match listResult with
  | .error e => if e = .alreadyExists then .ok true else .error e
  | .ok _items => .ok false

/-- Store responses consumed by
`VolumeSnapshotContentBackupItemActionV2.Execute` (first variant). -/
structure VSCBackupEnv where
  dataMoverCase : Bool := true
  vscReady : Except GoError Bool := .ok true
  resticSecretName : Except GoError String := .ok ""
  listVSBsForVSC : Except GoError (List VolumeSnapshotBackup) := .ok []
  createVSB : VolumeSnapshotBackup → Except GoError VolumeSnapshotBackup :=
    fun vsb => .ok vsb
  fetchVSB : String → String → Except GoError VolumeSnapshotBackup :=
    fun _ _ => .error .notFound

/-- The VolumeSnapshotBackup crafted by Execute for a VolumeSnapshotContent. -/
def craftVSBForVSC (backupName backupNamespace : String)
    (snapCont : VolumeSnapshotContent) (resticSecretName : String) :
    VolumeSnapshotBackup :=
  { metadata :=
      { generateName := "vsb-", nspace := snapCont.volumeSnapshotRefNamespace,
        labels := some
          [(BackupNameLabel, backupName),
           (VolumeSnapshotBackupVolumeSnapshotContent, snapCont.metadata.name)] },
    spec :=
      { volumeSnapshotContentName := snapCont.metadata.name,
        protectedNamespace := backupNamespace,
        resticSecretRefName := resticSecretName } }

/-- Output of the backup item action relevant to the claims: the operation
handle and the (name, namespace) pairs added to itemsToUpdate. -/
structure BIAv2Output where
  operationID : Str := []
  itemsToUpdate : List (String × String) := []
deriving DecidableEq, Repr

/-- `VolumeSnapshotContentBackupItemActionV2.Execute` (first variant),
datamover path: skip unrelated contents, wait for content readiness, look up
the credential, consult `VSBExistsForVSC`, and create + fetch back the
request only when it reports absence.  `createVSB` returns the stored object
(Go fills the generated name into its argument in place). -/
def ExecuteBackupV2a (backupName backupNamespace : String)
    (snapCont : VolumeSnapshotContent) (env : VSCBackupEnv) :
    Except GoError BIAv2Output :=
  if ¬ env.dataMoverCase then .ok {}
  else if ¬ VSCBelongsToBackup backupName snapCont then .ok {}
  else
    match env.vscReady with
    | .error e => .error e
    | .ok _ =>
      match env.resticSecretName with
      | .error e => .error e
      | .ok secretName =>
        match VSBExistsForVSC env.listVSBsForVSC with
        | .error e => .error e
        | .ok vsbExists =>
          if vsbExists then .ok {}
          else
            match env.createVSB
                (craftVSBForVSC backupName backupNamespace snapCont secretName) with
            | .error e => .error (.wrapped "error creating volumesnapshotbackup CR" e)
            | .ok created =>
              match env.fetchVSB created.metadata.nspace created.metadata.name with
              | .error e =>
                .error (.wrapped
                  "error fetching volumesnapshotbackup CR for suppyling operationID" e)
              | .ok fetched =>
                .ok { operationID :=
                        encodeOperationID fetched.metadata.nspace.toList
                          fetched.metadata.name.toList,
                      itemsToUpdate := [(fetched.metadata.name, fetched.metadata.nspace)] }

/-- A request already present in the store for content "vsc-1". -/
def existingVSB : VolumeSnapshotBackup :=
  { metadata :=
      { name := "vsb-old", nspace := "app-ns",
        labels := some [(BackupNameLabel, "backup-1"),
          (VolumeSnapshotBackupVolumeSnapshotContent, "vsc-1")] } }

/-- A store whose List returns the existing request and whose Create reports
the AlreadyExists conflict. -/
def conflictedEnv : VSCBackupEnv :=
  { listVSBsForVSC := .ok [existingVSB],
    createVSB := fun _ => .error .alreadyExists }

/-- The VolumeSnapshotContent labelled for backup "backup-1". -/
def vscForBackup1 : VolumeSnapshotContent :=
  { metadata := { name := "vsc-1", labels := some [(BackupNameLabel, "backup-1")] },
    volumeSnapshotRefName := "snap-1", volumeSnapshotRefNamespace := "app-ns" }

/-- Claim C3 (code bug, evaluated at the failing input): even though the
store already holds a request for the content, the existence check reports
absence (a successful List always yields false because its items are never
inspected), Execute proceeds to create a duplicate, and the AlreadyExists
conflict reported by the store is surfaced as a wrapped error instead of
being treated as success. -/
theorem create_not_idempotent_bug :
    VSBExistsForVSC (.ok [existingVSB]) = .ok false ∧
    ExecuteBackupV2a "backup-1" "velero-ns" vscForBackup1 conflictedEnv =
      .error (.wrapped "error creating volumesnapshotbackup CR" .alreadyExists) :=
  ⟨rfl, rfl⟩

end VSMPlugin
